import Mathlib

/-!
Shallow embedding of the prime-print backend schema and authorization layer
(a single SQL migration: tables profiles, merchants, print_orders; row-level
security policies; two trigger functions; one storage bucket with policies).

Row keys (UUID columns) are modelled as strings; timestamps as natural
numbers.  Each SQL policy becomes a boolean predicate over (acting identity,
row, database); permissive policies for the same operation are combined with
OR, and an UPDATE policy without an explicit WITH CHECK applies its USING
expression to the new row as well, as the database engine does.
-/

namespace PrimePrint

/-- UUID values, modelled as strings. -/
abbrev UUID := String

/-- Timestamps, modelled as natural numbers. -/
abbrev Time := Nat

/-- CREATE TYPE public.app_role AS ENUM ("user", "merchant"). -/
inductive AppRole where
  | user
  | merchant
deriving DecidableEq, Repr

/-- A row of public.profiles. -/
structure Profile where
  id : UUID
  email : String
  full_name : Option String
  role : AppRole
  created_at : Time
deriving DecidableEq, Repr

/-- A row of public.merchants. -/
structure Merchant where
  id : UUID
  user_id : UUID
  shop_name : String
  description : Option String
  location : Option String
  is_active : Bool
  created_at : Time
deriving DecidableEq, Repr

/-- A row of public.print_orders. -/
structure PrintOrder where
  id : UUID
  user_id : UUID
  merchant_id : UUID
  file_name : String
  file_url : String
  file_size : Option Int
  pages : Option Int
  copies : Int
  notes : Option String
  status : String
  created_at : Time
  updated_at : Time
deriving DecidableEq, Repr

/-- The status label pending. -/
def pendingStatus : String := "pending"

/-- The status label printing. -/
def printingStatus : String := "printing"

/-- The status label completed. -/
def completedStatus : String := "completed"

/-- The status label cancelled. -/
def cancelledStatus : String := "cancelled"

/-- The four status values admitted by the CHECK constraint on
print_orders.status. -/
def validStatuses : List String :=
  [pendingStatus, printingStatus, completedStatus, cancelledStatus]

/-- The CHECK constraint of print_orders:
status IN ("pending", "printing", "completed", "cancelled").
This is the only CHECK constraint declared on the table. -/
def printOrdersCheck (r : PrintOrder) : Bool :=
  validStatuses.contains r.status

/-- The caller-supplied values of an INSERT into print_orders; a column
with a DEFAULT is an Option, none meaning the column was omitted. -/
structure PrintOrderInsert where
  user_id : UUID
  merchant_id : UUID
  file_name : String
  file_url : String
  file_size : Option Int
  pages : Option Int
  copies : Option Int
  notes : Option String
  status : Option String
deriving DecidableEq, Repr

/-- Build the candidate row of an INSERT into print_orders, applying the
declared column defaults: pages DEFAULT 1, copies DEFAULT 1,
status DEFAULT "pending", created_at and updated_at DEFAULT now(). -/
def applyPrintOrderDefaults (id : UUID) (t : Time) (ins : PrintOrderInsert) :
    PrintOrder :=
  { id := id
    user_id := ins.user_id
    merchant_id := ins.merchant_id
    file_name := ins.file_name
    file_url := ins.file_url
    file_size := ins.file_size
    pages := some (ins.pages.getD 1)
    copies := ins.copies.getD 1
    notes := ins.notes
    status := ins.status.getD pendingStatus
    created_at := t
    updated_at := t }

/-- INSERT into print_orders: apply the defaults, then the CHECK
constraint; a violating row is rejected and nothing is stored. -/
def insertPrintOrder (id : UUID) (t : Time) (ins : PrintOrderInsert) :
    Option PrintOrder :=
  let r := applyPrintOrderDefaults id t ins
  if printOrdersCheck r then some r else none

/-- Trigger function public.update_updated_at_column:
NEW.updated_at = now(); RETURN NEW. -/
def update_updated_at_column (t : Time) (new : PrintOrder) : PrintOrder :=
  { new with updated_at := t }

/-- UPDATE of a print_orders row: the BEFORE UPDATE trigger
update_print_orders_updated_at rewrites updated_at to the current time,
then the CHECK constraint is enforced on the resulting row. -/
def runPrintOrderUpdate (t : Time) (new : PrintOrder) : Option PrintOrder :=
  let r := update_updated_at_column t new
  if printOrdersCheck r then some r else none

/-- The relational state the policy subqueries range over. -/
structure Database where
  profiles : List Profile
  merchants : List Merchant
  print_orders : List PrintOrder
deriving DecidableEq, Repr

/-! Section: Row-level security policies

Each CREATE POLICY statement becomes one boolean predicate; auth.uid() is
the acting identity, passed as the actor argument. -/

/-- Policy "Users can view their own profile": USING (auth.uid() = id). -/
def usersCanViewTheirOwnProfile (actor : UUID) (row : Profile) : Bool :=
  actor == row.id

/-- Policy "Users can update their own profile": USING (auth.uid() = id). -/
def usersCanUpdateTheirOwnProfile (actor : UUID) (row : Profile) : Bool :=
  actor == row.id

/-- Policy "Users can insert their own profile":
WITH CHECK (auth.uid() = id). -/
def usersCanInsertTheirOwnProfile (actor : UUID) (row : Profile) : Bool :=
  actor == row.id

/-- Policy "Anyone can view active merchants": USING (is_active = true). -/
def anyoneCanViewActiveMerchants (_actor : UUID) (row : Merchant) : Bool :=
  row.is_active == true

/-- SELECT on merchants is governed by the single policy
"Anyone can view active merchants". -/
def merchantSelectAllowed (actor : UUID) (row : Merchant) : Bool :=
  anyoneCanViewActiveMerchants actor row

/-- Policy "Merchant owners can update their shop":
USING (auth.uid() = user_id). -/
def merchantOwnersCanUpdateTheirShop (actor : UUID) (row : Merchant) : Bool :=
  actor == row.user_id

/-- UPDATE on merchants: the policy has no WITH CHECK clause, so its USING
expression gates the old row and is also applied to the new row. -/
def merchantUpdateAllowed (actor : UUID) (old new : Merchant) : Bool :=
  merchantOwnersCanUpdateTheirShop actor old &&
    merchantOwnersCanUpdateTheirShop actor new

/-- Policy "Users can create merchant profile":
WITH CHECK (auth.uid() = user_id). -/
def usersCanCreateMerchantProfile (actor : UUID) (row : Merchant) : Bool :=
  actor == row.user_id

/-- Policy "Users can view their own orders": USING (auth.uid() = user_id). -/
def usersCanViewTheirOwnOrders (actor : UUID) (row : PrintOrder) : Bool :=
  actor == row.user_id

/-- Policy "Merchants can view orders sent to them": USING
(EXISTS (SELECT 1 FROM merchants WHERE merchants.id = print_orders.merchant_id
AND merchants.user_id = auth.uid())). -/
def merchantsCanViewOrdersSentToThem (db : Database) (actor : UUID)
    (row : PrintOrder) : Bool :=
  db.merchants.any fun m => m.id == row.merchant_id && m.user_id == actor

/-- SELECT on print_orders: the two permissive SELECT policies combine
with OR. -/
def printOrderSelectAllowed (db : Database) (actor : UUID)
    (row : PrintOrder) : Bool :=
  usersCanViewTheirOwnOrders actor row ||
    merchantsCanViewOrdersSentToThem db actor row

/-- Policy "Users can create orders": WITH CHECK (auth.uid() = user_id). -/
def usersCanCreateOrders (actor : UUID) (row : PrintOrder) : Bool :=
  actor == row.user_id

/-- Policy "Users can update their own orders":
USING (auth.uid() = user_id). -/
def usersCanUpdateTheirOwnOrders (actor : UUID) (row : PrintOrder) : Bool :=
  actor == row.user_id

/-- Policy "Merchants can update orders sent to them": USING
(EXISTS (SELECT 1 FROM merchants WHERE merchants.id = print_orders.merchant_id
AND merchants.user_id = auth.uid())). -/
def merchantsCanUpdateOrdersSentToThem (db : Database) (actor : UUID)
    (row : PrintOrder) : Bool :=
  db.merchants.any fun m => m.id == row.merchant_id && m.user_id == actor

/-- The row gate of UPDATE on print_orders: the USING expressions of the
two permissive UPDATE policies, combined with OR. -/
def printOrderUpdateUsing (db : Database) (actor : UUID)
    (row : PrintOrder) : Bool :=
  usersCanUpdateTheirOwnOrders actor row ||
    merchantsCanUpdateOrdersSentToThem db actor row

/-- UPDATE on print_orders: neither policy has a WITH CHECK clause, so the
combined USING expression gates the old row and is also applied to the new
row. -/
def printOrderUpdateAllowed (db : Database) (actor : UUID)
    (old new : PrintOrder) : Bool :=
  printOrderUpdateUsing db actor old && printOrderUpdateUsing db actor new

/-! Section: Identity-to-Profile provisioning -/

/-- The metadata carried by a new external identity
(NEW.raw_user_meta_data); an absent key yields none, as the ->> operator
yields NULL. -/
structure RawUserMeta where
  full_name : Option String
  role : Option String
deriving DecidableEq, Repr

/-- A row of auth.users as seen by the trigger. -/
structure AuthUser where
  id : UUID
  email : String
  raw_user_meta_data : RawUserMeta
deriving DecidableEq, Repr

/-- The enum label user. -/
def userLabel : String := "user"

/-- The enum label merchant. -/
def merchantLabel : String := "merchant"

/-- The empty string, the COALESCE fallback for a missing full name. -/
def emptyStr : String := ""

/-- The SQL cast text::app_role: succeeds on the two enum labels and
raises an error (here: none) on any other value. -/
def castAppRole (s : String) : Option AppRole :=
  if s == userLabel then some AppRole.user
  else if s == merchantLabel then some AppRole.merchant
  else none

/-- Trigger function public.handle_new_user: builds the profiles row
INSERT INTO profiles (id, email, full_name, role) VALUES (NEW.id, NEW.email,
COALESCE(meta ->> full_name, empty), COALESCE((meta ->> role)::app_role,
user)).  An absent role key gives NULL, which COALESCE replaces by the
default; a present but invalid role value makes the cast raise, which is
modelled as none. -/
def handle_new_user (t : Time) (u : AuthUser) : Option Profile :=
  match u.raw_user_meta_data.role with
  | none =>
      some { id := u.id, email := u.email,
             full_name := some (u.raw_user_meta_data.full_name.getD emptyStr),
             role := AppRole.user, created_at := t }
  | some s =>
      (castAppRole s).map fun r =>
        { id := u.id, email := u.email,
          full_name := some (u.raw_user_meta_data.full_name.getD emptyStr),
          role := r, created_at := t }

/-- The state shared by the identity provider and the profiles table. -/
structure AuthState where
  users : List AuthUser
  profiles : List Profile
deriving DecidableEq, Repr

/-- Creation of an external identity: the AFTER INSERT trigger
on_auth_user_created runs handle_new_user inside the same transaction, so
either both the identity and its Profile are persisted or neither is. -/
def createIdentity (t : Time) (st : AuthState) (u : AuthUser) :
    Option AuthState :=
  (handle_new_user t u).map fun p =>
    { users := st.users ++ [u], profiles := st.profiles ++ [p] }

/-! Section: Storage bucket and policies -/

/-- A row of storage.objects. -/
structure StorageObject where
  bucket_id : String
  name : String
deriving DecidableEq, Repr

/-- The id of the bucket created for the PDFs. -/
def printFilesBucket : String := "print-files"

/-- The path separator of object keys. -/
def slashChar : Char := '/'

/-- Split a character list on a separator character. -/
def splitOnSep (sep : Char) : List Char → List (List Char)
  | [] => [[]]
  | c :: cs =>
      match splitOnSep sep cs with
      | [] => if c == sep then [[], []] else [[c]]
      | seg :: segs =>
          if c == sep then [] :: seg :: segs else (c :: seg) :: segs

/-- storage.foldername(name): the path segments of the object key with the
final segment (the file name) removed. -/
def foldername (name : String) : List String :=
  (((splitOnSep slashChar name.data).map fun l => String.mk l)).dropLast

/-- (storage.foldername(name))[1]: the first folder of the object key, or
none when the key has no folder (SQL NULL, on which any equality test is
not true). -/
def firstFolder (name : String) : Option String :=
  (foldername name).head?

/-- The SQL pattern test file_url LIKE (percent || name): file_url ends
with the object key. -/
def fileUrlLike (file_url name : String) : Bool :=
  name.data.isSuffixOf file_url.data

/-- Policy "Users can upload their own files": WITH CHECK
(bucket_id = print-files AND auth.uid()::text = (foldername(name))[1]). -/
def usersCanUploadTheirOwnFiles (actor : UUID) (obj : StorageObject) : Bool :=
  obj.bucket_id == printFilesBucket && firstFolder obj.name == some actor

/-- INSERT into storage.objects is governed by the single policy
"Users can upload their own files". -/
def storageInsertAllowed (actor : UUID) (obj : StorageObject) : Bool :=
  usersCanUploadTheirOwnFiles actor obj

/-- Policy "Users can view their own files": USING
(bucket_id = print-files AND auth.uid()::text = (foldername(name))[1]). -/
def usersCanViewTheirOwnFiles (actor : UUID) (obj : StorageObject) : Bool :=
  obj.bucket_id == printFilesBucket && firstFolder obj.name == some actor

/-- Policy "Merchants can view files in their orders": USING
(bucket_id = print-files AND EXISTS (SELECT 1 FROM print_orders po JOIN
merchants m ON po.merchant_id = m.id WHERE m.user_id = auth.uid() AND
po.file_url LIKE percent || objects.name)). -/
def merchantsCanViewFilesInTheirOrders (db : Database) (actor : UUID)
    (obj : StorageObject) : Bool :=
  obj.bucket_id == printFilesBucket &&
    (db.print_orders.any fun po =>
      db.merchants.any fun m =>
        po.merchant_id == m.id && m.user_id == actor &&
          fileUrlLike po.file_url obj.name)

/-- SELECT on storage.objects: the two permissive SELECT policies combine
with OR. -/
def storageSelectAllowed (db : Database) (actor : UUID)
    (obj : StorageObject) : Bool :=
  usersCanViewTheirOwnFiles actor obj ||
    merchantsCanViewFilesInTheirOrders db actor obj

/-! Section: Concrete sample data, used to instantiate the theorems below -/

/-- A sample customer identity key. -/
def aliceId : UUID := "alice"

/-- A sample merchant-owner identity key. -/
def bobId : UUID := "bob"

/-- A sample third-party identity key. -/
def carolId : UUID := "carol"

/-- A sample email address. -/
def aliceEmail : String := "alice@x.edu"

/-- A sample shop name. -/
def sampleShopName : String := "Campus Prints"

/-- A sample merchant row id. -/
def m1Id : UUID := "m1"

/-- A sample order row id. -/
def o1Id : UUID := "o1"

/-- A second order row id. -/
def o2Id : UUID := "o2"

/-- A sample uploaded file name. -/
def docName : String := "doc.pdf"

/-- A sample object key owned by alice. -/
def aliceObjName : String := "alice/doc.pdf"

/-- A sample object key owned by bob. -/
def bobObjName : String := "bob/doc.pdf"

/-- A sample file URL ending in the object key owned by alice. -/
def aliceFileUrl : String := "https://store/print-files/alice/doc.pdf"

/-- An invalid role label. -/
def adminLabel : String := "admin"

/-- An invalid status label. -/
def shippedStatus : String := "shipped"

/-- A sample active merchant row, owned by bob. -/
def merchantRow : Merchant :=
  { id := m1Id, user_id := bobId, shop_name := sampleShopName,
    description := none, location := none, is_active := true,
    created_at := 0 }

/-- The sample merchant row with the active flag cleared. -/
def inactiveMerchantRow : Merchant :=
  { merchantRow with is_active := false }

/-- A sample print order, placed by alice with the sample merchant. -/
def orderRow : PrintOrder :=
  { id := o1Id, user_id := aliceId, merchant_id := m1Id,
    file_name := docName, file_url := aliceFileUrl, file_size := none,
    pages := some 1, copies := 1, notes := none, status := pendingStatus,
    created_at := 0, updated_at := 0 }

/-- A caller-supplied update of the sample order: status advanced, with a
stale updated_at value supplied. -/
def suppliedOrderRow : PrintOrder :=
  { orderRow with status := printingStatus, updated_at := 3 }

/-- The stored result of updating the sample order at time 5. -/
def resultOrderRow : PrintOrder :=
  { suppliedOrderRow with updated_at := 5 }

/-- A sample database holding the merchant and the order. -/
def sampleDb : Database :=
  { profiles := [], merchants := [merchantRow], print_orders := [orderRow] }

/-- A database holding the merchant but no orders. -/
def noOrdersDb : Database :=
  { profiles := [], merchants := [merchantRow], print_orders := [] }

/-- An INSERT into print_orders supplying copies = 0 and no status. -/
def zeroCopiesInsert : PrintOrderInsert :=
  { user_id := aliceId, merchant_id := m1Id, file_name := docName,
    file_url := aliceFileUrl, file_size := none, pages := none,
    copies := some 0, notes := none, status := none }

/-- An object in the print-files bucket under the key owned by alice. -/
def aliceObj : StorageObject :=
  { bucket_id := printFilesBucket, name := aliceObjName }

/-- An object in the print-files bucket under the key owned by bob. -/
def bobObj : StorageObject :=
  { bucket_id := printFilesBucket, name := bobObjName }

/-- A sample external identity with no metadata. -/
def aliceUser : AuthUser :=
  { id := aliceId, email := aliceEmail,
    raw_user_meta_data := { full_name := none, role := none } }

/-- A third identity key. -/
def eveId : UUID := "eve"

/-- The email of the third identity. -/
def eveEmail : String := "eve@x.edu"

/-- An external identity carrying an invalid role value. -/
def eveUser : AuthUser :=
  { id := eveId, email := eveEmail,
    raw_user_meta_data := { full_name := none, role := some adminLabel } }

/-- The empty identity-provider state. -/
def emptyAuth : AuthState := { users := [], profiles := [] }

/-- The Profile the trigger derives for the sample identity. -/
def aliceProfile : Profile :=
  { id := aliceId, email := aliceEmail, full_name := some emptyStr,
    role := AppRole.user, created_at := 0 }

/-- The identity-provider state after the sample identity is created. -/
def provisionedAuth : AuthState :=
  { users := [aliceUser], profiles := [aliceProfile] }

/-! Section: Claims -/

/-- Claim C8: a Merchant row with is_active = false is not readable by any
non-owner actor, and a Merchant row with is_active = true is readable by
every actor, with no ownership check. -/
theorem merchant_read_active_iff :
    (∀ (actor : UUID) (row : Merchant), row.is_active = false →
        actor ≠ row.user_id → merchantSelectAllowed actor row = false) ∧
    (∀ (actor : UUID) (row : Merchant), row.is_active = true →
        merchantSelectAllowed actor row = true) := by
  constructor
  · intro actor row h _
    simp [merchantSelectAllowed, anyoneCanViewActiveMerchants, h]
  · intro actor row h
    simp [merchantSelectAllowed, anyoneCanViewActiveMerchants, h]

/-- Witness for C8 at concrete rows: alice cannot read the inactive
merchant row she does not own, and carol can read the active one. -/
theorem merchant_read_active_iff_witness :
    merchantSelectAllowed aliceId inactiveMerchantRow = false ∧
    merchantSelectAllowed carolId merchantRow = true :=
  ⟨merchant_read_active_iff.1 aliceId inactiveMerchantRow rfl (by decide),
   merchant_read_active_iff.2 carolId merchantRow rfl⟩

/-- Claim C10: a Merchant row with is_active = false is not readable by any
actor at all, the owning actor included: the SELECT policy tests only the
active flag. -/
theorem inactive_merchant_denied_to_owner :
    ∀ (row : Merchant), row.is_active = false →
      (∀ actor : UUID, merchantSelectAllowed actor row = false) ∧
      merchantSelectAllowed row.user_id row = false := by
  intro row h
  refine ⟨fun actor => ?_, ?_⟩ <;>
    simp [merchantSelectAllowed, anyoneCanViewActiveMerchants, h]

/-- Witness for C10: even bob, the owner, cannot read his inactive
merchant row. -/
theorem inactive_merchant_denied_to_owner_witness :
    merchantSelectAllowed inactiveMerchantRow.user_id inactiveMerchantRow
      = false :=
  (inactive_merchant_denied_to_owner inactiveMerchantRow rfl).2

/-- Claim C9: any permitted update of a Merchant row keeps user_id unchanged:
the UPDATE policy requires the actor to equal user_id in both the old and
the new row, so the owning Profile key is immutable. -/
theorem merchant_owner_key_immutable :
    ∀ (actor : UUID) (old new : Merchant),
      merchantUpdateAllowed actor old new = true →
      new.user_id = old.user_id := by
  intro actor old new h
  simp only [merchantUpdateAllowed, merchantOwnersCanUpdateTheirShop,
    Bool.and_eq_true, beq_iff_eq] at h
  rw [← h.1, ← h.2]

/-- Witness for C9: a permitted rename of the sample shop by its owner
keeps user_id unchanged. -/
theorem merchant_owner_key_immutable_witness :
    (inactiveMerchantRow : Merchant).user_id = merchantRow.user_id :=
  merchant_owner_key_immutable bobId merchantRow inactiveMerchantRow
    (by decide)

/-- Claim C4: a successful print_orders update stores the current time in
updated_at, whatever value the caller supplied there, so updated_at
strictly increases whenever the clock has advanced past its prior value. -/
theorem updated_at_refreshed :
    ∀ (t : Time) (old new r : PrintOrder),
      old.updated_at < t → runPrintOrderUpdate t new = some r →
      r.updated_at = t ∧ old.updated_at < r.updated_at := by
  intro t old new r hlt h
  dsimp [runPrintOrderUpdate, update_updated_at_column] at h
  by_cases hc : printOrdersCheck { new with updated_at := t } = true
  · rw [if_pos hc] at h
    injection h with h
    subst h
    exact ⟨rfl, hlt⟩
  · rw [if_neg hc] at h
    exact Option.noConfusion h

/-- Witness for C4: updating the sample order at time 5 with a supplied
updated_at of 3 stores 5, strictly above the prior value 0. -/
theorem updated_at_refreshed_witness :
    resultOrderRow.updated_at = 5 ∧
    orderRow.updated_at < resultOrderRow.updated_at :=
  updated_at_refreshed 5 orderRow suppliedOrderRow resultOrderRow
    (by decide) (by decide)

/-- Claim C6: every stored print_orders row (inserted or updated) has a status
among pending, printing, completed, cancelled; an insert supplying the
status shipped is rejected, an update to shipped is rejected, and an
insert omitting the status stores pending. -/
theorem status_check_enforced :
    (∀ (id : UUID) (t : Time) (ins : PrintOrderInsert) (r : PrintOrder),
        insertPrintOrder id t ins = some r → r.status ∈ validStatuses) ∧
    (∀ (t : Time) (new r : PrintOrder),
        runPrintOrderUpdate t new = some r → r.status ∈ validStatuses) ∧
    (∀ (id : UUID) (t : Time) (ins : PrintOrderInsert),
        ins.status = some shippedStatus → insertPrintOrder id t ins = none) ∧
    (∀ (t : Time) (new : PrintOrder), new.status = shippedStatus →
        runPrintOrderUpdate t new = none) ∧
    (∀ (id : UUID) (t : Time) (ins : PrintOrderInsert) (r : PrintOrder),
        ins.status = none → insertPrintOrder id t ins = some r →
        r.status = pendingStatus) := by
  refine ⟨?_, ?_, ?_, ?_, ?_⟩
  · intro id t ins r h
    dsimp [insertPrintOrder] at h
    by_cases hc : printOrdersCheck (applyPrintOrderDefaults id t ins) = true
    · rw [if_pos hc] at h
      injection h with h
      subst h
      simpa [printOrdersCheck, List.contains, List.elem_iff] using hc
    · rw [if_neg hc] at h
      exact Option.noConfusion h
  · intro t new r h
    dsimp [runPrintOrderUpdate] at h
    by_cases hc :
        printOrdersCheck (update_updated_at_column t new) = true
    · rw [if_pos hc] at h
      injection h with h
      subst h
      simpa [printOrdersCheck, List.contains, List.elem_iff] using hc
    · rw [if_neg hc] at h
      exact Option.noConfusion h
  · intro id t ins h
    simp [insertPrintOrder, applyPrintOrderDefaults, printOrdersCheck, h,
      validStatuses, pendingStatus, printingStatus, completedStatus,
      cancelledStatus, shippedStatus]
  · intro t new h
    simp [runPrintOrderUpdate, update_updated_at_column, printOrdersCheck,
      h, validStatuses, pendingStatus, printingStatus, completedStatus,
      cancelledStatus, shippedStatus]
  · intro id t ins r h hins
    dsimp [insertPrintOrder] at hins
    by_cases hc : printOrdersCheck (applyPrintOrderDefaults id t ins) = true
    · rw [if_pos hc] at hins
      injection hins with hins
      subst hins
      simp [applyPrintOrderDefaults, h]
    · rw [if_neg hc] at hins
      exact Option.noConfusion hins

/-- Witness for C6: the sample insert (no status supplied) stores status
pending, a valid value, and the shipped update of the sample order is
rejected. -/
theorem status_check_enforced_witness :
    orderRow.status ∈ validStatuses ∧
    orderRow.status = pendingStatus ∧
    runPrintOrderUpdate 5 { orderRow with status := shippedStatus }
      = none :=
  ⟨status_check_enforced.1 o1Id 0 zeroCopiesInsert
      { orderRow with copies := 0, file_size := none } (by decide),
   status_check_enforced.2.2.2.2 o1Id 0 zeroCopiesInsert
      { orderRow with copies := 0 } rfl (by decide),
   status_check_enforced.2.2.2.1 5 { orderRow with status := shippedStatus }
      rfl⟩

/-- Claim C2, counterexample: an INSERT into print_orders supplying copies = 0
is not rejected; the row is stored with copies = 0, because the only CHECK
constraint on the table concerns the status column. -/
theorem copies_zero_not_rejected :
    insertPrintOrder o2Id 1 zeroCopiesInsert ≠ none ∧
    (insertPrintOrder o2Id 1 zeroCopiesInsert).map PrintOrder.copies
      = some 0 := by
  decide

/-- Claim C2, amended: an INSERT into print_orders omitting copies stores
copies = 1 (the declared default), and the constraint check never rejects
a row for its copies value: any insert with a valid-or-omitted status
succeeds, whatever copies it supplies. -/
theorem copies_default_one :
    (∀ (id : UUID) (t : Time) (ins : PrintOrderInsert) (r : PrintOrder),
        ins.copies = none → insertPrintOrder id t ins = some r →
        r.copies = 1) ∧
    (∀ (id : UUID) (t : Time) (ins : PrintOrderInsert),
        ins.status = none → (insertPrintOrder id t ins).isSome = true) := by
  constructor
  · intro id t ins r h hins
    dsimp [insertPrintOrder] at hins
    by_cases hc : printOrdersCheck (applyPrintOrderDefaults id t ins) = true
    · rw [if_pos hc] at hins
      injection hins with hins
      subst hins
      simp [applyPrintOrderDefaults, h]
    · rw [if_neg hc] at hins
      exact Option.noConfusion hins
  · intro id t ins h
    simp [insertPrintOrder, applyPrintOrderDefaults, printOrdersCheck, h,
      validStatuses, List.contains]

/-- Witness for amended C2: an insert omitting copies stores copies 1,
and the zero-copies insert goes through. -/
theorem copies_default_one_witness :
    ({ orderRow with id := o2Id, created_at := 1, updated_at := 1 }
        : PrintOrder).copies = 1 ∧
    (insertPrintOrder o2Id 1 zeroCopiesInsert).isSome = true :=
  ⟨copies_default_one.1 o2Id 1 { zeroCopiesInsert with copies := none }
      { orderRow with id := o2Id, created_at := 1, updated_at := 1 }
      rfl (by decide),
   copies_default_one.2 o2Id 1 zeroCopiesInsert rfl⟩

/-- Claim C5: an upload to the print-files bucket whose object key does not have
the identity key of the actor as its first folder is denied; one with the
correct first folder is permitted, and the stored object is readable by
that same actor. -/
theorem upload_requires_own_folder :
    ∀ (db : Database) (actor : UUID) (obj : StorageObject),
      obj.bucket_id = printFilesBucket →
      (firstFolder obj.name ≠ some actor →
        storageInsertAllowed actor obj = false) ∧
      (firstFolder obj.name = some actor →
        storageInsertAllowed actor obj = true ∧
        storageSelectAllowed db actor obj = true) := by
  intro db actor obj hb
  constructor
  · intro hne
    simp [storageInsertAllowed, usersCanUploadTheirOwnFiles, hb, hne]
  · intro heq
    constructor
    · simp [storageInsertAllowed, usersCanUploadTheirOwnFiles, hb, heq]
    · simp [storageSelectAllowed, usersCanViewTheirOwnFiles, hb, heq]

/-- Witness for C5: alice cannot upload under the key of bob, can upload
under her own key, and can then read that object. -/
theorem upload_requires_own_folder_witness :
    storageInsertAllowed aliceId bobObj = false ∧
    storageInsertAllowed aliceId aliceObj = true ∧
    storageSelectAllowed sampleDb aliceId aliceObj = true :=
  ⟨(upload_requires_own_folder sampleDb aliceId bobObj rfl).1 (by decide),
   ((upload_requires_own_folder sampleDb aliceId aliceObj rfl).2
      (by decide)).1,
   ((upload_requires_own_folder sampleDb aliceId aliceObj rfl).2
      (by decide)).2⟩

/-- Claim C7, counterexample: bob owns a merchant, and with no print order on
file he can still read the object stored under his own key, through the
own-files SELECT policy; so merchant-owned read access is not equivalent
to the existence of a matching order. -/
theorem merchant_file_read_not_iff :
    (∃ m ∈ noOrdersDb.merchants, m.user_id = bobId) ∧
    ¬ (storageSelectAllowed noOrdersDb bobId bobObj = true ↔
        ∃ po ∈ noOrdersDb.print_orders, ∃ m ∈ noOrdersDb.merchants,
          po.merchant_id = m.id ∧ m.user_id = bobId ∧
          fileUrlLike po.file_url bobObj.name = true) := by
  decide

/-- Claim C7, amended: a read of a storage object is permitted exactly when the
object lives in the print-files bucket and either its first folder is the
actor, or some print order of a merchant owned by the actor has a file URL
ending in the object key. -/
theorem storage_select_characterization :
    ∀ (db : Database) (actor : UUID) (obj : StorageObject),
      storageSelectAllowed db actor obj = true ↔
        (obj.bucket_id = printFilesBucket ∧
          (firstFolder obj.name = some actor ∨
            ∃ po ∈ db.print_orders, ∃ m ∈ db.merchants,
              po.merchant_id = m.id ∧ m.user_id = actor ∧
              fileUrlLike po.file_url obj.name = true)) := by
  intro db actor obj
  simp only [storageSelectAllowed, usersCanViewTheirOwnFiles,
    merchantsCanViewFilesInTheirOrders, Bool.or_eq_true, Bool.and_eq_true,
    List.any_eq_true, beq_iff_eq]
  tauto

/-- Claim C1: a SELECT of a print_orders row is permitted exactly when the actor
is the customer, or owns the merchant the order was sent to; an UPDATE
keeping the customer and merchant keys is permitted under exactly the same
condition; every other actor is denied. -/
theorem print_order_access_iff :
    ∀ (db : Database) (actor : UUID) (row new : PrintOrder),
      new.user_id = row.user_id → new.merchant_id = row.merchant_id →
      ((printOrderSelectAllowed db actor row = true ↔
          (actor = row.user_id ∨
            ∃ m ∈ db.merchants, m.id = row.merchant_id ∧
              m.user_id = actor)) ∧
        (printOrderUpdateAllowed db actor row new = true ↔
          (actor = row.user_id ∨
            ∃ m ∈ db.merchants, m.id = row.merchant_id ∧
              m.user_id = actor))) := by
  intro db actor row new hu hm
  constructor
  · simp only [printOrderSelectAllowed, usersCanViewTheirOwnOrders,
      merchantsCanViewOrdersSentToThem, Bool.or_eq_true,
      List.any_eq_true, Bool.and_eq_true, beq_iff_eq]
  · simp only [printOrderUpdateAllowed, printOrderUpdateUsing,
      usersCanUpdateTheirOwnOrders, merchantsCanUpdateOrdersSentToThem,
      Bool.and_eq_true, Bool.or_eq_true, List.any_eq_true, beq_iff_eq,
      hu, hm]
    tauto

/-- Witness for C1: alice (the customer) may read the sample order, bob
(the merchant owner) may update it, and carol (a third party) is denied
both. -/
theorem print_order_access_iff_witness :
    printOrderSelectAllowed sampleDb aliceId orderRow = true ∧
    printOrderUpdateAllowed sampleDb bobId orderRow suppliedOrderRow
      = true ∧
    printOrderSelectAllowed sampleDb carolId orderRow = false :=
  ⟨(print_order_access_iff sampleDb aliceId orderRow suppliedOrderRow rfl
      rfl).1.mpr (Or.inl rfl),
   (print_order_access_iff sampleDb bobId orderRow suppliedOrderRow rfl
      rfl).2.mpr (Or.inr ⟨merchantRow, by decide, rfl, rfl⟩),
   by
    have h := (print_order_access_iff sampleDb carolId orderRow
      suppliedOrderRow rfl rfl).1
    by_contra hc
    simp only [Bool.not_eq_false] at hc
    rcases h.mp hc with h1 | ⟨m, hmem, _, h2⟩
    · exact absurd h1 (by decide)
    · have : m = merchantRow := by
        simpa [sampleDb] using hmem
      subst this
      exact absurd h2 (by decide)⟩

/-- Any profile produced by the trigger function handle_new_user copies
the identity key and email, defaults a missing full name to the empty
string, takes the default role exactly when no role value was supplied,
and otherwise carries the successfully cast supplied role. -/
theorem handle_new_user_spec (t : Time) (u : AuthUser) (p : Profile)
    (h : handle_new_user t u = some p) :
    p.id = u.id ∧ p.email = u.email ∧
    p.full_name = some (u.raw_user_meta_data.full_name.getD emptyStr) ∧
    (u.raw_user_meta_data.role = none → p.role = AppRole.user) ∧
    (∀ s, u.raw_user_meta_data.role = some s →
      castAppRole s = some p.role) := by
  cases hrole : u.raw_user_meta_data.role with
  | none =>
      simp only [handle_new_user, hrole] at h
      injection h with h
      subst h
      simp [hrole]
  | some s =>
      simp only [handle_new_user, hrole] at h
      cases hc : castAppRole s with
      | none =>
          rw [hc] at h
          exact Option.noConfusion h
      | some r =>
          rw [hc] at h
          simp only [Option.map_some'] at h
          injection h with h
          subst h
          simp [hrole, hc]

/-- Claim C3: when identity creation succeeds and the identity key is fresh,
the identity is stored and exactly one Profile with its key exists, with
its email, valid-or-default role, and default-empty full name; when the
supplied role value does not cast, the whole creation fails and neither
an identity nor a Profile is persisted. -/
theorem identity_creation_profile :
    (∀ (t : Time) (st : AuthState) (u : AuthUser) (st2 : AuthState),
        (∀ p ∈ st.profiles, p.id ≠ u.id) →
        createIdentity t st u = some st2 →
        u ∈ st2.users ∧
        ∃ p, st2.profiles.filter (fun q => q.id == u.id) = [p] ∧
          p.email = u.email ∧
          (u.raw_user_meta_data.role = none → p.role = AppRole.user) ∧
          (∀ s, u.raw_user_meta_data.role = some s →
            castAppRole s = some p.role) ∧
          (u.raw_user_meta_data.full_name = none →
            p.full_name = some emptyStr)) ∧
    (∀ (t : Time) (st : AuthState) (u : AuthUser) (s : String),
        u.raw_user_meta_data.role = some s → castAppRole s = none →
        createIdentity t st u = none) := by
  constructor
  · intro t st u st2 hfresh h
    rw [createIdentity, Option.map_eq_some'] at h
    obtain ⟨p, hp, heq⟩ := h
    obtain ⟨hid, hemail, hname, hrole1, hrole2⟩ :=
      handle_new_user_spec t u p hp
    subst heq
    constructor
    · simp
    · refine ⟨p, ?_, hemail, hrole1, hrole2, ?_⟩
      · rw [List.filter_append]
        have h1 : st.profiles.filter (fun q => q.id == u.id) = [] := by
          rw [List.filter_eq_nil_iff]
          intro q hq
          simpa using hfresh q hq
        have h2 : List.filter (fun q => q.id == u.id) [p] = [p] := by
          simp [List.filter, hid]
        rw [h1, h2, List.nil_append]
      · intro hn
        rw [hname, hn]
        rfl
  · intro t st u s hrole hcast
    simp [createIdentity, handle_new_user, hrole, hcast]

/-- Witness for C3: creating the sample identity (no metadata) from the
empty state yields exactly the one expected Profile, and creating an
identity whose role value is admin fails entirely. -/
theorem identity_creation_profile_witness :
    (aliceUser ∈ provisionedAuth.users ∧
      ∃ p, provisionedAuth.profiles.filter
          (fun q => q.id == aliceUser.id) = [p] ∧
        p.email = aliceUser.email ∧
        (aliceUser.raw_user_meta_data.role = none →
          p.role = AppRole.user) ∧
        (∀ s, aliceUser.raw_user_meta_data.role = some s →
          castAppRole s = some p.role) ∧
        (aliceUser.raw_user_meta_data.full_name = none →
          p.full_name = some emptyStr)) ∧
    createIdentity 0 emptyAuth eveUser = none :=
  ⟨identity_creation_profile.1 0 emptyAuth aliceUser provisionedAuth
      (by simp [emptyAuth]) (by decide),
   identity_creation_profile.2 0 emptyAuth eveUser adminLabel rfl
      (by decide)⟩

end PrimePrint
